import Mathlib

/-!
Verification of the NF-e ingestion pipeline of the ERP-FINANCEIRO repository
(`Monitor NF-e/nfe_search.py` and `Monitor NF-e/Atualizar.py`).

The Python code is shallowly embedded: lxml `findtext` results are modelled as
`Option String` (absent element = `none`), Python string truthiness as
"non-empty", the SQLite tables as association lists, and the base64/gzip
machinery as an abstract decode function.  Each definition carries a comment
naming the source lines it embeds.
-/

/-- Python `a or b` on two `findtext` results: `a` unless it is `None` or the
empty string (Python falsiness for strings), else `b`. -/
def pyOrStr : Option String → Option String → Option String
  | some s, b => if s = "" then b else some s
  | none, b => b

/-- Python truthiness of a `findtext` result: present and non-empty. -/
def pyTruthy : Option String → Bool
  | some s => s != ""
  | none => false

/-- The characters stripped by Python `str.strip()` (ASCII whitespace). -/
def isPyWhitespace (c : Char) : Bool :=
  c = ' ' || c = '\t' || c = '\n' || c = '\r' || c = '\x0b' || c = '\x0c'

/-- Python `s.strip()`. -/
def pyStrip (s : String) : String :=
  String.mk (((s.toList.dropWhile isPyWhitespace).reverse.dropWhile isPyWhitespace).reverse)

/-- Python `s.lower()` (ASCII range, which covers every tag and keyword the
source compares). -/
def pyLower (s : String) : String := String.mk (s.toList.map Char.toLower)

/-- `Atualizar.py` lines 64-65, the field sanitizer `limpa`:
`v if (v and v.strip() and v.strip().lower() not in ["none", "null"]) else ""`.
The argument is the raw `findtext` result (`none` = element absent). -/
def limpa (v : Option String) : String :=
  match v with
  | none => ""
  | some s =>
      if s ≠ "" ∧ pyStrip s ≠ "" ∧ pyLower (pyStrip s) ≠ "none" ∧ pyLower (pyStrip s) ≠ "null"
      then s else ""

/-- The `infEvento` block of an event document, as read by
`Atualizar.detectar_evento_cancelamento` (lines 92-95): the three `findtext`
results `chNFe`, `chCTe` and `tpEvento`. -/
structure InfEvento where
  chNFe : Option String
  chCTe : Option String
  tpEvento : Option String
deriving DecidableEq, Repr

/-- `Atualizar.py` lines 87-101, `detectar_evento_cancelamento`: given the
document's `infEvento` block (or `none` when the document has no such block),
returns `(chave, status)`.  `chave = findtext(chNFe) or findtext(chCTe)`;
when `tpEvento == "110111"` the pair `(chave, "Cancelada")` is returned,
otherwise `(None, None)`. -/
def detectar_evento_cancelamento (infEvento : Option InfEvento) : Option String × Option String :=
  match infEvento with
  | none => (none, none)
  | some ev =>
      let chave := pyOrStr ev.chNFe ev.chCTe
      if ev.tpEvento = some "110111" then (chave, some "Cancelada") else (none, none)

/-- `nfe_search.py` lines 187-189, the `data_emissao` field of
`extrair_nota_detalhada`: `dhEmi[:10]` when `dhEmi` is present and non-empty,
else `""`.  No other element is consulted. -/
def data_emissao_detalhada (dhEmi : Option String) : String :=
  match dhEmi with
  | some s => if s ≠ "" then s.take 10 else ""
  | none => ""

/-- `Atualizar.py` lines 54-57, the raw `data_emissao` of `extrair_info_nfe`:
`findtext(dhEmi) or findtext(dEmi)` (the record then applies `limpa`). -/
def data_emissao_info (dhEmi dEmi : Option String) : Option String :=
  pyOrStr dhEmi dEmi

/-- Modelled from the spec (claim C9's wording, for refinement comparison
only): the issue date is taken from `dhEmi`, falling back to `dEmi` when
`dhEmi` is absent or empty. -/
def data_emissao_claimed (dhEmi dEmi : Option String) : String :=
  match pyOrStr dhEmi dEmi with
  | some s => s
  | none => ""

/-- `nfe_search.py` lines 171-176 of `extrair_nota_detalhada`: the status
string of a projected record, from the `nf_status` row for the key
(`None` or the pair `(cStat, xMotivo)`):
`f"{cStat} – {xMotivo}"` when the row exists and both fields are truthy,
else the literal default. -/
def resolve_status (status_db : Option (String × String)) : String :=
  match status_db with
  | some st =>
      if st.1 ≠ "" ∧ st.2 ≠ "" then st.1 ++ " – " ++ st.2
      else "Autorizado o uso da NF-e"
  | none => "Autorizado o uso da NF-e"

/-- `nfe_search.py` lines 382-387, `DatabaseManager.get_nf_status`:
`SELECT cStat, xMotivo FROM nf_status WHERE chNFe = ?` over the `nf_status`
table (rows `(chNFe, cStat, xMotivo)`). -/
def get_nf_status (ledger : List (String × String × String)) (chave : String) :
    Option (String × String) :=
  (ledger.find? (fun r => r.1 == chave)).map (fun r => r.2)

/-- One `docZip` element of a distribution response: its `NSU` attribute and
its base64 text content. -/
structure DocZip where
  nsu : String
  text : String
deriving DecidableEq, Repr

/-- `nfe_search.py` lines 581-591, `XMLProcessor.extract_docs`: for each
`docZip` element in document order, base64-decode the text and
gzip-decompress it (`decode` abstracts `gzip.decompress(base64.b64decode _)`),
pairing the result with the `NSU` attribute.  There is no per-entry exception
handler in the source: a failing decode raises out of the whole call. -/
def extract_docs (decode : String → Except String String) :
    List DocZip → Except String (List (String × String))
  | [] => Except.ok []
  | dz :: rest =>
      match decode dz.text with
      | Except.error e => Except.error e
      | Except.ok xml =>
          match extract_docs decode rest with
          | Except.error e => Except.error e
          | Except.ok docs => Except.ok ((dz.nsu, xml) :: docs)

/-- `nfe_search.py` lines 290-302, `ROOT_XSD_MAP`: the fixed table mapping a
root element name to its XSD filename. -/
def ROOT_XSD_MAP : List (String × String) :=
  [("nfeProc", "procNFe_v4.00.xsd"),
   ("NFe", "leiauteNFe_v4.00.xsd"),
   ("procEventoNFe", "procEventoNFe_v1.00.xsd"),
   ("resNFe", "resNFe_v1.01.xsd"),
   ("resEvento", "resEvento_v1.01.xsd"),
   ("retConsReciNFe", "retConsReciNFe_v4.00.xsd"),
   ("enviNFe", "enviNFe_v4.00.xsd"),
   ("distDFeInt", "distDFeInt_v1.01.xsd"),
   ("inutNFe", "inutNFe_v4.00.xsd"),
   ("procInutNFe", "procInutNFe_v4.00.xsd")]

/-- `nfe_search.py` line 313: the event roots whose validation is skipped,
`root_tag.lower() in {"proceventonfe", "resevento", "receventonfe"}`. -/
def skipValidation (root_tag : String) : Bool :=
  pyLower root_tag == "proceventonfe" || pyLower root_tag == "resevento" ||
    pyLower root_tag == "receventonfe"

/-- `nfe_search.py` line 318: `ROOT_XSD_MAP.get(root_tag, default_xsd)`. -/
def xsd_for (root_tag default_xsd : String) : String :=
  ((ROOT_XSD_MAP.find? (fun p => p.1 == root_tag)).map Prod.snd).getD default_xsd

/-- The schema-routing decision of `validar_xml_auto` (lines 313-318):
`none` when validation is skipped for this root, otherwise the XSD filename
that will be looked up. -/
def resolve_xsd (root_tag default_xsd : String) : Option String :=
  if skipValidation root_tag then none else some (xsd_for root_tag default_xsd)

/-- `os.path.dirname`: the text before the last path separator. -/
def dirname (p : String) : String :=
  let parts := p.splitOn "/"
  match parts with
  | [] => ""
  | [_] => ""
  | _ => String.intercalate "/" parts.dropLast

/-- The process-wide mutable state touched by `validar_xml_auto`: the current
working directory (`os.getcwd` / `os.chdir`). -/
structure FSState where
  cwd : String
deriving DecidableEq, Repr

/-- Outcome of `validar_xml_auto`: `ok` models `return True`, `error` a raised
exception (file-not-found, schema parse failure, or validation failure). -/
inductive VOutcome where
  | ok
  | error (msg : String)
deriving DecidableEq, Repr

/-- The filesystem collaborators of `validar_xml_auto`: `find_xsd` models the
recursive search for the XSD under the script directory (lines 321-333), and
`loadAndValidate` models reading/parsing the schema and validating the tree
(lines 343-348), executed in the working directory recorded in its argument;
an `error` result models any exception raised there. -/
structure ValidatorEnv where
  find_xsd : String → Option String
  loadAndValidate : FSState → Except String Unit

/-- `nfe_search.py` lines 285-357, `validar_xml_auto`, with the XML already
parsed to its root tag: skip event roots; route to an XSD name; fail when the
file is not found; otherwise save `cwd`, `chdir` into the XSD's directory,
load and validate there (any exception is re-raised wrapped), and restore the
saved `cwd` in the `finally` block regardless of the outcome. -/
def validar_xml_auto (env : ValidatorEnv) (root_tag default_xsd : String) (s : FSState) :
    VOutcome × FSState :=
  if skipValidation root_tag then (VOutcome.ok, s)
  else
    let xsd_file := xsd_for root_tag default_xsd
    match env.find_xsd xsd_file with
    | none => (VOutcome.error ("Arquivo XSD nao encontrado: " ++ xsd_file), s)
    | some xsd_path =>
        let cwd := s.cwd
        let inDir : FSState := ⟨dirname xsd_path⟩
        let r := env.loadAndValidate inDir
        let restored : FSState := ⟨cwd⟩
        match r with
        | Except.ok _ => (VOutcome.ok, restored)
        | Except.error e => (VOutcome.error ("Falha ao validar XML: " ++ e), restored)

/-- A row of the `notas_detalhadas` table (`nfe_search.py` lines 469-487),
all columns TEXT in the order of the `INSERT OR REPLACE`. -/
structure Nota where
  chave : String
  ie_tomador : String
  nome_emitente : String
  cnpj_emitente : String
  numero : String
  data_emissao : String
  tipo : String
  valor : String
  cfop : String
  vencimento : String
  uf : String
  natureza : String
  status : String
  atualizado_em : String
  cnpj_destinatario : String
deriving DecidableEq, Repr

/-- `nfe_search.py` lines 496-511, `DatabaseManager.salvar_nota_detalhada`:
`INSERT OR REPLACE INTO notas_detalhadas` keyed by the primary key `chave` —
SQLite deletes any row with the same key and inserts the new one. -/
def salvar_nota_detalhada (tbl : List Nota) (nota : Nota) : List Nota :=
  (tbl.filter (fun r => r.chave != nota.chave)) ++ [nota]

/-- The database state visible to the ingestion loops, plus a trace of every
`set_last_nsu` call (each SQL write to the `nsu` table) so that "zero writes"
claims can be stated. -/
structure Db where
  nsu : List (String × String)
  xmls_baixados : List (String × String)
  notas_detalhadas : List Nota
  nsuWrites : List (String × String)
deriving DecidableEq, Repr

/-- `nfe_search.py` lines 530-537, `DatabaseManager.set_last_nsu`:
`INSERT OR REPLACE INTO nsu (informante, ult_nsu)`. -/
def set_last_nsu (db : Db) (informante nsu : String) : Db :=
  { db with
      nsu := (db.nsu.filter (fun p => p.1 != informante)) ++ [(informante, nsu)],
      nsuWrites := db.nsuWrites ++ [(informante, nsu)] }

/-- `nfe_search.py` lines 521-528, `DatabaseManager.get_last_nsu`: the stored
cursor, or the sentinel `"000000000000000"` when no row exists. -/
def get_last_nsu (db : Db) (informante : String) : String :=
  match db.nsu.find? (fun p => p.1 == informante) with
  | some p => p.2
  | none => "000000000000000"

/-- `nfe_search.py` lines 539-546, `DatabaseManager.registrar_xml`:
`INSERT OR IGNORE INTO xmls_baixados (chave, cnpj_cpf)` — a key already
present leaves the table unchanged. -/
def registrar_xml (db : Db) (chave cnpj : String) : Db :=
  if db.xmls_baixados.any (fun p => p.1 == chave) then db
  else { db with xmls_baixados := db.xmls_baixados ++ [(chave, cnpj)] }

/-- One decoded document of a distribution batch, abstracting the per-document
pipeline of `ciclo_nsu` lines 75-91: `ok` is true when `validar_xml_auto`,
the `etree` parse and every database write succeed (false models the raised
exception that line 90's `except` swallows, before any write lands);
`infNFe_Id` is the `Id` attribute of the `infNFe` element (`none` when the
element is absent, in which case the document is skipped with `continue`);
`nota` is the record built by `extrair_nota_detalhada` for this document. -/
structure Doc where
  nsu : String
  ok : Bool
  infNFe_Id : Option String
  nota : Nota
deriving DecidableEq, Repr

/-- `ciclo_nsu` lines 75-91, the body of `for nsu, xml in docs` with its
`try/except`: a failing document changes nothing (the exception is logged and
swallowed); a valid document without `infNFe` changes nothing; otherwise the
key (last 44 characters of the `Id`) is registered and the detailed record is
upserted. -/
def process_doc (db : Db) (cnpj : String) (d : Doc) : Db :=
  if d.ok then
    match d.infNFe_Id with
    | none => db
    | some i =>
        let chave := i.takeRight 44
        let db1 := registrar_xml db chave cnpj
        { db1 with notas_detalhadas := salvar_nota_detalhada db1.notas_detalhadas d.nota }
  else db

/-- A distribution response as seen through `XMLProcessor`: the results of
`extract_cStat` (lines 600-605), `extract_last_nsu` (lines 593-598, already
zero-filled to 15 digits, `none` when the `ultNSU` element is absent or
empty), and `extract_docs` (lines 581-591, assumed to have decoded). -/
structure Resp where
  cStat : Option String
  ultNSU : Option String
  docs : List Doc
deriving DecidableEq, Repr

/-- Continuation decision of one iteration of `ciclo_nsu`'s inner
`while True` loop: `stop` models `break`, `cont nsu` models falling through
to the next iteration with the local `ult_nsu` updated. -/
inductive StepOut where
  | stop
  | cont (nsu : String)
deriving DecidableEq, Repr

/-- `nfe_search.py` lines 56-97, one iteration of `ciclo_nsu`'s inner loop
for one certificate, given the (already fetched and parsed) response:

* no response (line 59): `break`;
* `cStat == '656'` (lines 63-69): persist the response's `ultNSU` only when
  it is truthy and differs from the current cursor, then `break`;
* no documents (line 72): `break`;
* otherwise (lines 75-97): process every document (failures swallowed
  per-document), then persist the response's `ultNSU` and continue when it is
  truthy and differs from the current cursor, else `break`. -/
def ciclo_step (inf cnpj : String) (ult_nsu : String) (resp : Option Resp) (db : Db) :
    StepOut × Db :=
  match resp with
  | none => (StepOut.stop, db)
  | some r =>
      if r.cStat = some "656" then
        match r.ultNSU with
        | some ult =>
            if ult ≠ "" ∧ ult ≠ ult_nsu then (StepOut.stop, set_last_nsu db inf ult)
            else (StepOut.stop, db)
        | none => (StepOut.stop, db)
      else if r.docs.isEmpty then (StepOut.stop, db)
      else
        let db1 := r.docs.foldl (fun d doc => process_doc d cnpj doc) db
        match r.ultNSU with
        | some ult =>
            if ult ≠ "" ∧ ult ≠ ult_nsu then (StepOut.cont ult, set_last_nsu db1 inf ult)
            else (StepOut.stop, db1)
        | none => (StepOut.stop, db1)

/-- `main` lines 755-766, the per-document body of the one-shot pass: only
`registrar_xml` is performed (no detailed record), failures swallowed. -/
def main_process_doc (db : Db) (cnpj : String) (d : Doc) : Db :=
  if d.ok then
    match d.infNFe_Id with
    | none => db
    | some i => registrar_xml db (i.takeRight 44) cnpj
  else db

/-- `nfe_search.py` lines 745-766, the distribution handling of `main` for
one certificate: on no response, nothing; on `cStat == '656'`, only a log
line — the cursor is never written; otherwise the cursor is set to the
response's `ultNSU` whenever it is truthy (before the documents are
processed), and then every document is processed with per-document exception
swallowing. -/
def main_cert_pass (inf cnpj : String) (resp : Option Resp) (db : Db) : Db :=
  match resp with
  | none => db
  | some r =>
      if r.cStat = some "656" then db
      else
        let db1 :=
          match r.ultNSU with
          | some u => if u ≠ "" then set_last_nsu db inf u else db
          | none => db
        r.docs.foldl (fun d doc => main_process_doc d cnpj doc) db1

/-! Concrete inputs used by counterexamples and witnesses. -/

/-- An all-empty detailed record (used as the record of test documents). -/
def nota0 : Nota := ⟨"", "", "", "", "", "", "", "", "", "", "", "", "", "", ""⟩

/-- A document whose validation (or persistence) raises: `ok = false` models
the exception swallowed by the per-document `except` handler. -/
def badDoc : Doc :=
  { nsu := "000000000000005", ok := false,
    infNFe_Id := some "NFe50240512345678000195550010000000011000000017", nota := nota0 }

/-- The empty database. -/
def db0 : Db := ⟨[], [], [], []⟩

/-- A successful distribution response (`cStat = 138`) whose single document
fails validation, carrying a new `ultNSU`. -/
def resp_failed_batch : Resp :=
  { cStat := some "138", ultNSU := some "000000000000005", docs := [badDoc] }

/-- A throttled distribution response (`cStat = 656`) whose `ultNSU` differs
from the stored cursor of `db0`. -/
def resp_throttled : Resp :=
  { cStat := some "656", ultNSU := some "000000000000007", docs := [] }

/-- A concrete decode function for `extract_docs` tests: the text `"BAD"`
models a corrupt base64/gzip payload (decoding raises), anything else decodes
to a small XML string. -/
def decode0 : String → Except String String := fun t =>
  if t = "BAD" then Except.error "gzip error"
  else Except.ok ("<nfeProc>" ++ t ++ "</nfeProc>")

/-- First detailed record projected for the key `CHAVE1`. -/
def notaA : Nota :=
  { nota0 with chave := "CHAVE1", numero := "1", status := "Autorizado o uso da NF-e" }

/-- Second detailed record projected for the same key `CHAVE1`, with
different field values. -/
def notaB : Nota :=
  { nota0 with chave := "CHAVE1", numero := "1", valor := "R$ 10,00",
               status := "101 – Cancelamento de NF-e homologado" }

/-- A cancellation event block (`tpEvento = 110111`). -/
def eventoCancel : InfEvento :=
  ⟨some "50240512345678000195550010000000011000000017", none, some "110111"⟩

/-- A validator environment in which every XSD is found under `schemas/` and
schema validation raises. -/
def envFail : ValidatorEnv :=
  { find_xsd := fun n => some ("schemas/" ++ n),
    loadAndValidate := fun _ => Except.error "element not expected" }

/-! Helper lemmas shared by the claim theorems. -/

theorem get_last_nsu_set (db : Db) (inf v : String) :
    get_last_nsu (set_last_nsu db inf v) inf = v := by
  unfold get_last_nsu set_last_nsu
  simp only [List.find?_append]
  have hnone : (db.nsu.filter (fun p => p.1 != inf)).find? (fun p => p.1 == inf) = none := by
    apply List.find?_eq_none.mpr
    intro x hx
    have hpx := (List.mem_filter.mp hx).2
    simp only [bne_iff_ne, ne_eq] at hpx
    simp [hpx]
  rw [hnone]
  simp [List.find?]

theorem process_doc_nsu (db : Db) (cnpj : String) (d : Doc) :
    (process_doc db cnpj d).nsu = db.nsu := by
  unfold process_doc registrar_xml salvar_nota_detalhada
  cases d.ok <;> simp
  cases d.infNFe_Id <;> simp
  split <;> simp

theorem foldl_process_doc_nsu (docs : List Doc) (cnpj : String) (db : Db) :
    (docs.foldl (fun d doc => process_doc d cnpj doc) db).nsu = db.nsu := by
  induction docs generalizing db with
  | nil => rfl
  | cons d rest ih => rw [List.foldl_cons, ih, process_doc_nsu]

/-- C1, counterexample: in `ciclo_nsu`, a batch whose only document fails
validation (`ok = false`, i.e. `validar_xml_auto` raised and the exception was
swallowed at line 90) still advances the stored cursor from the sentinel to
the response's `ultNSU` `"000000000000005"` — the cursor IS advanced past a
batch that failed validation and persistence, contradicting the claim. -/
theorem C1_counterexample :
    resp_failed_batch.docs.all (fun d => !d.ok) = true ∧
    get_last_nsu db0 "inf1" = "000000000000000" ∧
    get_last_nsu ((ciclo_step "inf1" "cnpj1" "000000000000000"
        (some resp_failed_batch) db0).2) "inf1" = "000000000000005" := by
  decide

/-- C1 (amended): for every poll pass of `ciclo_nsu`, after a distribution
response that is not throttled (`cStat` differs from `656`), carries at least
one document, and carries a truthy `ultNSU` different from the current cursor,
the stored cursor is advanced to that `ultNSU` unconditionally — whether or
not validation or persistence of the batch's documents failed (per-document
failures are logged and swallowed and do not block the advance). -/
theorem C1_cursor_advance_amended (inf cnpj nsu : String) (r : Resp) (db : Db) (u : String)
    (h656 : r.cStat ≠ some "656") (hdocs : r.docs ≠ [])
    (hult : r.ultNSU = some u) (hne : u ≠ "") (hdiff : u ≠ nsu) :
    get_last_nsu ((ciclo_step inf cnpj nsu (some r) db).2) inf = u := by
  have hempty : r.docs.isEmpty = false := by
    cases h : r.docs with
    | nil => exact absurd h hdocs
    | cons a l => simp
  simp only [ciclo_step, if_neg h656, hempty, Bool.false_eq_true, if_false, hult,
    if_pos (And.intro hne hdiff)]
  exact get_last_nsu_set _ inf u

/-- C1, witness for the amended theorem at the concrete failed batch. -/
theorem C1_cursor_advance_amended_witness :
    get_last_nsu ((ciclo_step "inf1" "cnpj1" "000000000000000"
        (some resp_failed_batch) db0).2) "inf1" = "000000000000005" :=
  C1_cursor_advance_amended "inf1" "cnpj1" "000000000000000" resp_failed_batch db0
    "000000000000005" (by decide) (by decide) rfl (by decide) (by decide)

/-- C2, counterexample: the one-shot orchestrator `main` (lines 748-754),
cited by the claim, performs zero writes to the cursor store on a throttled
response even though the response's `ultNSU` (`000000000000007`) differs from
the stored cursor — the "if it differs, the new ultNSU is persisted" half of
the claim fails there. -/
theorem C2_counterexample :
    resp_throttled.cStat = some "656" ∧
    resp_throttled.ultNSU = some "000000000000007" ∧
    get_last_nsu db0 "inf1" ≠ "000000000000007" ∧
    main_cert_pass "inf1" "cnpj1" (some resp_throttled) db0 = db0 ∧
    (main_cert_pass "inf1" "cnpj1" (some resp_throttled) db0).nsuWrites = [] := by
  decide

/-- C2 (amended): on a throttled response (`cStat = 656`): in the continuous
cycle (`ciclo_nsu`) the claim holds as stated — no cursor write when the
response's `ultNSU` equals the stored cursor (or is absent), exactly one
write persisting the new value when it differs, and in every case the inner
loop stops for that certificate; in the one-shot pass (`main`), however, the
cursor store is never written on 656, even when `ultNSU` differs, and that
certificate's processing ends. -/
theorem C2_throttle_amended (inf cnpj nsu : String) (r : Resp) (db : Db)
    (h : r.cStat = some "656") :
    (r.ultNSU = some nsu → ciclo_step inf cnpj nsu (some r) db = (StepOut.stop, db)) ∧
    (r.ultNSU = none → ciclo_step inf cnpj nsu (some r) db = (StepOut.stop, db)) ∧
    (∀ u, r.ultNSU = some u → u ≠ "" → u ≠ nsu →
      ciclo_step inf cnpj nsu (some r) db = (StepOut.stop, set_last_nsu db inf u)) ∧
    main_cert_pass inf cnpj (some r) db = db := by
  refine ⟨fun hu => ?_, fun hu => ?_, fun u hu hne hdiff => ?_, ?_⟩
  · simp [ciclo_step, h, hu]
  · simp [ciclo_step, h, hu]
  · simp [ciclo_step, h, hu, hne, hdiff]
  · simp [main_cert_pass, h]

/-- C2, witness for the amended theorem: at the concrete throttled response,
`ciclo_nsu` persists the differing `ultNSU` and stops, while `main` leaves
the database untouched. -/
theorem C2_throttle_amended_witness :
    ciclo_step "inf1" "cnpj1" "000000000000000" (some resp_throttled) db0 =
      (StepOut.stop, set_last_nsu db0 "inf1" "000000000000007") ∧
    main_cert_pass "inf1" "cnpj1" (some resp_throttled) db0 = db0 := by
  have h := C2_throttle_amended "inf1" "cnpj1" "000000000000000" resp_throttled db0 (by decide)
  exact ⟨h.2.2.1 "000000000000007" rfl (by decide) (by decide), h.2.2.2⟩

/-- C3, counterexample: `extract_docs` on an envelope with two `docZip`
entries, the first corrupt and the second fine, raises (`Except.error`)
instead of returning the pair for the remaining good entry — there is no
per-entry handler in the source, so one corrupt entry aborts the whole
batch. -/
theorem C3_counterexample :
    extract_docs decode0 [⟨"000000000000001", "BAD"⟩, ⟨"000000000000002", "ok2"⟩] =
      Except.error "gzip error" ∧
    extract_docs decode0 [⟨"000000000000001", "BAD"⟩, ⟨"000000000000002", "ok2"⟩] ≠
      Except.ok [("000000000000002", "<nfeProc>ok2</nfeProc>")] := by
  constructor
  · rfl
  · intro h
    exact Except.noConfusion
      ((rfl : extract_docs decode0
          [⟨"000000000000001", "BAD"⟩, ⟨"000000000000002", "ok2"⟩] =
        Except.error "gzip error").symm.trans h)

/-- C3 (amended): `extract_docs` returns the `(NSU, xml)` pairs of all
entries, in document order, when every `docZip` decodes; but the first entry
whose base64/gzip decoding fails makes the whole call raise that error and
return no pairs at all — skipping of individual bad documents happens only at
the later per-document processing stage of the orchestrator, not in
`extract_docs`. -/
theorem C3_decode_abort_amended :
    (∀ (decode : String → Except String String) (f : DocZip → String) (entries : List DocZip),
      (∀ dz ∈ entries, decode dz.text = Except.ok (f dz)) →
      extract_docs decode entries = Except.ok (entries.map (fun dz => (dz.nsu, f dz)))) ∧
    (∀ (decode : String → Except String String) (f : DocZip → String)
        (pre : List DocZip) (bad : DocZip) (post : List DocZip) (e : String),
      (∀ dz ∈ pre, decode dz.text = Except.ok (f dz)) →
      decode bad.text = Except.error e →
      extract_docs decode (pre ++ bad :: post) = Except.error e) := by
  constructor
  · intro decode f entries h
    induction entries with
    | nil => rfl
    | cons dz rest ih =>
        have hdz := h dz (List.mem_cons_self dz rest)
        have hrest := ih (fun x hx => h x (List.mem_cons_of_mem dz hx))
        simp [extract_docs, hdz, hrest]
  · intro decode f pre bad post e hpre hbad
    induction pre with
    | nil => simp [extract_docs, hbad]
    | cons dz rest ih =>
        have hdz := hpre dz (List.mem_cons_self dz rest)
        have hrest := ih (fun x hx => hpre x (List.mem_cons_of_mem dz hx))
        simp [extract_docs, hdz, hrest]

/-- C3, witness for the amended theorem: an all-good batch decodes in full,
and the batch with the corrupt first entry raises. -/
theorem C3_decode_abort_amended_witness :
    extract_docs decode0 [⟨"000000000000002", "ok2"⟩] =
      Except.ok [("000000000000002", "<nfeProc>" ++ "ok2" ++ "</nfeProc>")] ∧
    extract_docs decode0 [⟨"000000000000001", "BAD"⟩, ⟨"000000000000002", "ok2"⟩] =
      Except.error "gzip error" := by
  have h := C3_decode_abort_amended
  refine ⟨h.1 decode0 (fun dz => "<nfeProc>" ++ dz.text ++ "</nfeProc>") _ ?_,
          h.2 decode0 (fun dz => "<nfeProc>" ++ dz.text ++ "</nfeProc>")
            [] ⟨"000000000000001", "BAD"⟩ [⟨"000000000000002", "ok2"⟩] "gzip error" ?_ rfl⟩
  · intro dz hdz
    simp only [List.mem_singleton] at hdz
    subst hdz
    rfl
  · intro dz hdz
    exact absurd hdz (List.not_mem_nil dz)

/-- Helper: a root whose lowercase form is one of the three event roots is
skipped by the validator. -/
theorem skipValidation_eq_true (root : String)
    (h : pyLower root = "proceventonfe" ∨ pyLower root = "resevento" ∨
      pyLower root = "receventonfe") :
    skipValidation root = true := by
  unfold skipValidation
  rcases h with h | h | h <;> simp [h]

/-- C4: schema routing of `validar_xml_auto` — a document with root `NFe`
resolves to the schema file `leiauteNFe_v4.00.xsd`; a document whose root,
case-normalized, is `procEventoNFe`, `resEvento` or `recEventoNFe` is routed
to no XSD at all, and validation reports success unchanged for every
environment (in particular one in which no XSD exists), so no XSD is located
or loaded. -/
theorem C4_schema_routing :
    (∀ d, resolve_xsd "NFe" d = some "leiauteNFe_v4.00.xsd") ∧
    (∀ root d, (pyLower root = "proceventonfe" ∨ pyLower root = "resevento" ∨
        pyLower root = "receventonfe") → resolve_xsd root d = none) ∧
    (∀ (env : ValidatorEnv) root d s,
      (pyLower root = "proceventonfe" ∨ pyLower root = "resevento" ∨
        pyLower root = "receventonfe") →
      validar_xml_auto env root d s = (VOutcome.ok, s)) := by
  refine ⟨fun d => ?_, fun root d h => ?_, fun env root d s h => ?_⟩
  · have hskip : skipValidation "NFe" = false := by decide
    simp [resolve_xsd, hskip, xsd_for, ROOT_XSD_MAP, List.find?]
  · simp [resolve_xsd, skipValidation_eq_true root h]
  · simp [validar_xml_auto, skipValidation_eq_true root h]

/-- C4, witness: concrete routing of the `NFe` root, of the skipped
`procEventoNFe` root, and a skipped `resEvento` validation in an environment
without any XSD. -/
theorem C4_schema_routing_witness :
    resolve_xsd "NFe" "leiauteNFe_v4.00.xsd" = some "leiauteNFe_v4.00.xsd" ∧
    resolve_xsd "procEventoNFe" "leiauteNFe_v4.00.xsd" = none ∧
    validar_xml_auto ⟨fun _ => none, fun _ => Except.error "no xsd"⟩ "resEvento"
      "leiauteNFe_v4.00.xsd" ⟨"/home/app"⟩ = (VOutcome.ok, ⟨"/home/app"⟩) := by
  have h := C4_schema_routing
  exact ⟨h.1 _, h.2.1 "procEventoNFe" _ (by decide), h.2.2 _ "resEvento" _ _ (by decide)⟩

/-- Helper: rows surviving the delete phase of an `INSERT OR REPLACE` never
match the replaced key. -/
theorem filter_key_of_filter_ne (l : List Nota) (k : String) :
    (l.filter (fun r => r.chave != k)).filter (fun r => r.chave == k) = [] := by
  induction l with
  | nil => rfl
  | cons a t ih =>
      by_cases h : a.chave = k
      · simp [List.filter_cons, h, ih]
      · simp [List.filter_cons, h, ih]

/-- C5: for every invoice key, after any sequence of
`salvar_nota_detalhada` upserts for that key (applied to any prior table
state), the `notas_detalhadas` table contains exactly one row for that key,
and it is the record supplied by the most recent upsert — last-write-wins,
no versioning. -/
theorem C5_upsert_by_key (tbl : List Nota) (k : String) (ns : List Nota) (n : Nota)
    (_hns : ∀ m ∈ ns, m.chave = k) (hn : n.chave = k) :
    ((ns ++ [n]).foldl salvar_nota_detalhada tbl).filter (fun r => r.chave == k) = [n] := by
  rw [List.foldl_append, List.foldl_cons, List.foldl_nil]
  unfold salvar_nota_detalhada
  rw [hn, List.filter_append, filter_key_of_filter_ne]
  simp [List.filter_cons, hn]

/-- C5, witness: two successive upserts for the key `CHAVE1` on the empty
table leave exactly the second record. -/
theorem C5_upsert_by_key_witness :
    (([notaA] ++ [notaB]).foldl salvar_nota_detalhada []).filter
      (fun r => r.chave == "CHAVE1") = [notaB] :=
  C5_upsert_by_key [] "CHAVE1" [notaA] notaB (by decide) (by decide)

/-- C6, counterexample: when the status ledger holds an entry for the key
whose code and reason are both empty (as `parse_protNFe` produces for a
protocol block without `cStat`/`xMotivo` elements), the projected status is
the literal default, not the formatted entry `" – "` that the claim
prescribes for every held entry. -/
theorem C6_counterexample :
    get_nf_status [("CH1", "", "")] "CH1" = some ("", "") ∧
    resolve_status (get_nf_status [("CH1", "", "")] "CH1") = "Autorizado o uso da NF-e" ∧
    resolve_status (get_nf_status [("CH1", "", "")] "CH1") ≠ "" ++ " – " ++ "" := by
  refine ⟨rfl, rfl, ?_⟩
  decide

/-- C6 (amended): the projected status is the ledger entry formatted as
`code – reason` only when the ledger holds an entry for the key and both its
code and its reason are non-empty; otherwise — no entry, or an entry with an
empty code or reason — it is the literal default
`Autorizado o uso da NF-e`. -/
theorem C6_status_amended (ledger : List (String × String × String)) (chave : String) :
    (get_nf_status ledger chave = none →
      resolve_status (get_nf_status ledger chave) = "Autorizado o uso da NF-e") ∧
    (∀ c m, get_nf_status ledger chave = some (c, m) → c ≠ "" → m ≠ "" →
      resolve_status (get_nf_status ledger chave) = c ++ " – " ++ m) ∧
    (∀ c m, get_nf_status ledger chave = some (c, m) → (c = "" ∨ m = "") →
      resolve_status (get_nf_status ledger chave) = "Autorizado o uso da NF-e") := by
  refine ⟨fun h => ?_, fun c m h hc hm => ?_, fun c m h hcm => ?_⟩
  · rw [h]
    rfl
  · rw [h]
    simp [resolve_status, hc, hm]
  · rw [h]
    rcases hcm with hc | hm
    · simp [resolve_status, hc]
    · simp [resolve_status, hm]

/-- C6, witness for the amended theorem: a full entry is formatted, the
empty-fields entry and the missing entry both fall back to the default. -/
theorem C6_status_amended_witness :
    resolve_status (get_nf_status [("CH2", "100", "Autorizado o uso da NF-e")] "CH2") =
      "100" ++ " – " ++ "Autorizado o uso da NF-e" ∧
    resolve_status (get_nf_status [("CH1", "", "")] "CH1") = "Autorizado o uso da NF-e" ∧
    resolve_status (get_nf_status [("CH1", "", "")] "CH9") = "Autorizado o uso da NF-e" := by
  have h1 := C6_status_amended [("CH2", "100", "Autorizado o uso da NF-e")] "CH2"
  have h2 := C6_status_amended [("CH1", "", "")] "CH1"
  have h3 := C6_status_amended [("CH1", "", "")] "CH9"
  exact ⟨h1.2.1 "100" "Autorizado o uso da NF-e" rfl (by decide) (by decide),
         h2.2.2 "" "" rfl (Or.inl rfl), h3.1 rfl⟩

/-- C7: for every document containing an `infEvento` block, the extractor
yields the status `"Cancelada"` exactly when the event-type code equals
`"110111"`, in which case it is paired with the affected key (`chNFe`,
falling back to `chCTe`); for any other event-type code (or an absent one)
the result is the null pair. -/
theorem C7_cancellation (ev : InfEvento) :
    ((detectar_evento_cancelamento (some ev)).2 = some "Cancelada" ↔
      ev.tpEvento = some "110111") ∧
    (ev.tpEvento = some "110111" →
      (detectar_evento_cancelamento (some ev)).1 = pyOrStr ev.chNFe ev.chCTe) ∧
    (ev.tpEvento ≠ some "110111" →
      detectar_evento_cancelamento (some ev) = (none, none)) := by
  unfold detectar_evento_cancelamento
  by_cases h : ev.tpEvento = some "110111"
  · simp [h]
  · simp [h]

/-- C7, witness: a `110111` event yields `"Cancelada"` with its `chNFe` key;
a `110110` event yields the null pair. -/
theorem C7_cancellation_witness :
    (detectar_evento_cancelamento (some eventoCancel)).2 = some "Cancelada" ∧
    (detectar_evento_cancelamento (some eventoCancel)).1 =
      some "50240512345678000195550010000000011000000017" ∧
    detectar_evento_cancelamento (some ⟨none, none, some "110110"⟩) = (none, none) := by
  have h1 := C7_cancellation eventoCancel
  have h2 := C7_cancellation ⟨none, none, some "110110"⟩
  exact ⟨h1.1.mpr rfl, (h1.2.1 rfl).trans rfl, h2.2.2 (by decide)⟩

/-- C8, counterexample: the raw text `"NULL"` is none of the four values the
claim enumerates (`"None"`, `"null"`, the empty string, whitespace-only), so
by the claim it should pass through unchanged — but `limpa` strips and
lower-cases before comparing and normalizes it to the empty string. -/
theorem C8_counterexample :
    ("NULL" : String) ≠ "None" ∧ ("NULL" : String) ≠ "null" ∧ ("NULL" : String) ≠ "" ∧
    pyStrip "NULL" = "NULL" ∧
    limpa (some "NULL") = "" ∧ limpa (some "NULL") ≠ "NULL" := by
  decide

/-- C8 (amended): a field is normalized to the empty string exactly when its
stripped text is empty (this covers the absent, empty and whitespace-only
cases) or its stripped, lower-cased text equals `"none"` or `"null"`
(case-insensitive, surrounding whitespace ignored); every other value is
passed through unchanged, surrounding whitespace included. -/
theorem C8_sanitization_amended :
    (∀ s : String,
      limpa (some s) =
        if pyStrip s = "" ∨ pyLower (pyStrip s) = "none" ∨ pyLower (pyStrip s) = "null"
        then "" else s) ∧
    limpa none = "" := by
  constructor
  · intro s
    unfold limpa
    by_cases h1 : pyStrip s = ""
    · simp [h1]
    · by_cases h2 : pyLower (pyStrip s) = "none"
      · simp [h1, h2]
      · by_cases h3 : pyLower (pyStrip s) = "null"
        · simp [h1, h2, h3]
        · have hs : s ≠ "" := by
            intro he
            rw [he] at h1
            exact h1 rfl
          simp [h1, h2, h3, hs]
  · rfl

/-- C9, counterexample: for a document whose `dhEmi` element is absent but
whose `dEmi` element holds `"2024-05-01"`, `extrair_nota_detalhada` (which
never consults `dEmi`) produces the empty issue date, while the claimed
fallback produces `"2024-05-01"`. -/
theorem C9_counterexample :
    data_emissao_detalhada none = "" ∧
    data_emissao_claimed none (some "2024-05-01") = "2024-05-01" ∧
    data_emissao_detalhada none ≠ data_emissao_claimed none (some "2024-05-01") := by
  decide

/-- C9 (amended): `Atualizar.extrair_info_nfe` does fall back from `dhEmi` to
`dEmi` when `dhEmi` is absent or empty; `nfe_search.extrair_nota_detalhada`
instead uses only `dhEmi`, truncated to its first 10 characters, and yields
the empty string whenever `dhEmi` is absent or empty — it has no `dEmi`
fallback. -/
theorem C9_data_emissao_amended :
    (∀ dEmi, data_emissao_info none dEmi = dEmi) ∧
    (∀ dEmi, data_emissao_info (some "") dEmi = dEmi) ∧
    (∀ s dEmi, s ≠ "" → data_emissao_info (some s) dEmi = some s) ∧
    data_emissao_detalhada none = "" ∧
    data_emissao_detalhada (some "") = "" ∧
    (∀ s, s ≠ "" → data_emissao_detalhada (some s) = s.take 10) := by
  refine ⟨fun d => rfl, fun d => rfl, fun s d h => ?_, rfl, rfl, fun s h => ?_⟩
  · simp [data_emissao_info, pyOrStr, h]
  · simp [data_emissao_detalhada, h]

/-- C9, witness for the amended theorem at a concrete timestamp. -/
theorem C9_data_emissao_amended_witness :
    data_emissao_info (some "2024-05-01T08:00:00-03:00") (some "2024-01-01") =
      some "2024-05-01T08:00:00-03:00" ∧
    data_emissao_detalhada (some "2024-05-01T08:00:00-03:00") = "2024-05-01" := by
  have h := C9_data_emissao_amended
  exact ⟨h.2.2.1 _ _ (by decide),
         (h.2.2.2.2.2 "2024-05-01T08:00:00-03:00" (by decide)).trans (by decide)⟩

/-- C10: whenever `validar_xml_auto` reaches the XSD-loading step (the root
is not an event root and the XSD file was found), the schema is loaded and
validated with the working directory set to the XSD's containing directory,
and the working directory afterwards equals the prior one regardless of the
outcome — success, validation failure, or exception (the restore sits in the
`finally` block). -/
theorem C10_cwd_restored (env : ValidatorEnv) (root d : String) (s : FSState)
    (xsd_path : String)
    (hskip : skipValidation root = false)
    (hfind : env.find_xsd (xsd_for root d) = some xsd_path) :
    (validar_xml_auto env root d s).2 = ⟨s.cwd⟩ ∧
    (validar_xml_auto env root d s).1 =
      (match env.loadAndValidate ⟨dirname xsd_path⟩ with
       | Except.ok _ => VOutcome.ok
       | Except.error e => VOutcome.error ("Falha ao validar XML: " ++ e)) := by
  unfold validar_xml_auto
  simp only [hskip, Bool.false_eq_true, if_false, hfind]
  cases h : env.loadAndValidate ⟨dirname xsd_path⟩ <;> simp [h]

/-- C10, witness: in an environment in which schema validation raises, the
final working directory still equals the prior one, and the raised message is
propagated. -/
theorem C10_cwd_restored_witness :
    (validar_xml_auto envFail "NFe" "leiauteNFe_v4.00.xsd" ⟨"/home/app"⟩).2 =
      ⟨"/home/app"⟩ ∧
    (validar_xml_auto envFail "NFe" "leiauteNFe_v4.00.xsd" ⟨"/home/app"⟩).1 =
      VOutcome.error ("Falha ao validar XML: " ++ "element not expected") := by
  have h := C10_cwd_restored envFail "NFe" "leiauteNFe_v4.00.xsd" ⟨"/home/app"⟩
    ("schemas/" ++ "leiauteNFe_v4.00.xsd") (by decide) rfl
  exact ⟨h.1, h.2⟩
